import Mathlib

/-!
Shallow embedding of the ClawCombat nanobot fleet scheduler
(src/bots/nanobot-fleet/railway/scheduler.py), the core component of the
repository.  Time is modelled as an integer number of seconds; the 55-minute
cool-down of the scheduler is 3300 seconds.  Remote interactions
(registration call, rate-limit query, battle subprocess) are modelled by
oracles: inductive types enumerating the outcomes the Python code
distinguishes, passed in as parameters.  Raising a Python exception out of a
function is modelled by `Except.error`; a function that catches all
exceptions internally is modelled as a total function.
-/

namespace FleetScheduler

/-- One agent record of the manifest, as built by `register_bot` in
scheduler.py: keys `index`, `agent_id`, `api_key`, `name`, `registered`,
`last_battle` (null until the first successful battle) and `battles`. -/
structure Bot where
  index : Nat
  agent_id : String
  api_key : String
  name : String
  registered : Int
  last_battle : Option Int
  battles : Nat
  deriving Repr, DecidableEq

/-- The fleet manifest: the JSON object `{'bots': [...], 'created': ...}`. -/
structure Manifest where
  bots : List Bot
  created : Int
  deriving Repr, DecidableEq

/-- State of the persisted manifest file: absent, present but unparsable
(`json.load` raises), or present holding a well-formed manifest. -/
inductive FileState where
  | missing : FileState
  | corrupt : FileState
  | valid : Manifest → FileState
  deriving Repr, DecidableEq

/-- `load_manifest` (scheduler.py lines 62-67): when the file exists it is
fed to `json.load`, whose parse failure on a corrupt file propagates as an
exception (`Except.error`); when the file is absent an empty manifest with a
fresh creation timestamp is returned. -/
def load_manifest (fs : FileState) (now : Int) : Except String Manifest :=
  match fs with
  | .missing => .ok { bots := [], created := now }
  | .corrupt => .error "JSONDecodeError"
  | .valid m => .ok m

/-- `save_manifest` (scheduler.py lines 70-73): `json.dump` of the manifest
overwrites the file, making the persisted state a valid serialization of
exactly that manifest. -/
def save_manifest (m : Manifest) : FileState :=
  .valid m

/-- Outcome of the remote registration POST in `register_bot`: the request
may raise a transport error, `raise_for_status` may raise on a non-success
status, the JSON body may lack the `data` key, or it may carry the agent
credentials (with an optional `name`). -/
inductive RegResult where
  | transportError : RegResult
  | httpError : RegResult
  | noData : RegResult
  | success : String → String → Option String → RegResult
  deriving Repr, DecidableEq

/-- Whether the remote registration outcome carries usable credentials. -/
def regOk (r : RegResult) : Bool :=
  match r with
  | .success _ _ _ => true
  | _ => false

/-- `register_bot` (scheduler.py lines 76-102): every exception of the
remote call is caught and the function returns `None`; only a success
response with a `data` payload yields a fresh record with `last_battle =
None` and `battles = 0`.  The returned `None` carries no information. -/
def register_bot (bot_index : Nat) (r : RegResult) (now : Int) : Option Bot :=
  match r with
  | .success agent_id api_key name? =>
      some { index := bot_index
             agent_id := agent_id
             api_key := api_key
             name := name?.getD (s!"Bot-{bot_index}")
             registered := now
             last_battle := none
             battles := 0 }
  | .transportError => none
  | .httpError => none
  | .noData => none

/-- Outcome of the remote rate-limit GET in `check_rate_limit`: the request
may raise (timeout or transport error), the response may be non-ok, its JSON
may lack the `data` key, or `data` may (optionally) carry
`fights_remaining`. -/
inductive RLResult where
  | err : RLResult
  | respNotOk : RLResult
  | respNoData : RLResult
  | respData : Option Int → RLResult
  deriving Repr, DecidableEq

/-- `check_rate_limit` (scheduler.py lines 105-120): exceptions are caught
and every path other than an ok response whose `data` reports
`fights_remaining > 0` falls through to `return False`; a missing
`fights_remaining` defaults to 0. -/
def check_rate_limit (r : RLResult) : Bool :=
  match r with
  | .err => false
  | .respNotOk => false
  | .respNoData => false
  | .respData f => decide (0 < f.getD 0)

/-- Outcome of the `nanobot` subprocess in `run_bot_battle`: normal
completion with a return code, a `TimeoutExpired` exception after the
5-minute limit, or any other exception while launching or running it. -/
inductive ActionOutcome where
  | completed : Int → ActionOutcome
  | timeout : ActionOutcome
  | error : ActionOutcome
  deriving Repr, DecidableEq

/-- `run_bot_battle` (scheduler.py lines 123-186): only a completed run with
return code 0 sets `last_battle` to the current time, increments `battles`
and returns `True`; timeout, any other exception, and a non-zero return
code all leave the record untouched and return `False`. -/
def run_bot_battle (b : Bot) (o : ActionOutcome) (now : Int) : Bot × Bool :=
  match o with
  | .completed rc =>
      if rc = 0 then
        ({ b with last_battle := some now, battles := b.battles + 1 }, true)
      else
        (b, false)
  | .timeout => (b, false)
  | .error => (b, false)

/-- The local cool-down test of the main loop (scheduler.py lines 229-233):
a bot with `last_battle` set is skipped when strictly less than 55 minutes
(3300 seconds) have elapsed; a bot that never battled passes. -/
def cooldown_ok (last_battle : Option Int) (now : Int) : Bool :=
  match last_battle with
  | none => true
  | some t => decide (3300 ≤ now - t)

/-- What the main loop did with one bot during one cycle: skipped at the
rate-limit check, skipped at the cool-down check, or handed to
`run_bot_battle` (which reported success or failure). -/
inductive StepResult where
  | skippedRL : StepResult
  | skippedCooldown : StepResult
  | ran : Bool → StepResult
  deriving Repr, DecidableEq

/-- The per-bot body of the battle cycle (scheduler.py lines 222-241):
`check_rate_limit` first, then the local cool-down test, and only if both
pass is `run_bot_battle` invoked. -/
def cycle_step (b : Bot) (r : RLResult) (o : ActionOutcome) (now : Int) :
    Bot × StepResult :=
  if check_rate_limit r = false then
    (b, .skippedRL)
  else if cooldown_ok b.last_battle now = false then
    (b, .skippedCooldown)
  else
    let res := run_bot_battle b o now
    (res.1, .ran res.2)

/-- One full cycle over the list of bots, visiting them in manifest order.
`pos` indexes the oracles `rl` and `acts` by position in the iteration, so
each bot's remote responses are consulted exactly once per cycle.  Returns
the updated bots together with `battles_run`, the number of successful
battles of the cycle. -/
def run_cycle_aux (pos : Nat) (bots : List Bot) (rl : Nat → RLResult)
    (acts : Nat → ActionOutcome) (now : Int) : List Bot × Nat :=
  match bots with
  | [] => ([], 0)
  | b :: rest =>
      let step := cycle_step b (rl pos) (acts pos) now
      let tail := run_cycle_aux (pos + 1) rest rl acts now
      (step.1 :: tail.1,
       tail.2 + (if step.2 = StepResult.ran true then 1 else 0))

/-- One battle cycle starting at position 0. -/
def run_cycle (bots : List Bot) (rl : Nat → RLResult)
    (acts : Nat → ActionOutcome) (now : Int) : List Bot × Nat :=
  run_cycle_aux 0 bots rl acts now

/-- The remote environment of one whole cycle: a rate-limit response and an
action outcome per position, and the cycle's wall-clock time. -/
structure CycleEnv where
  rl : Nat → RLResult
  acts : Nat → ActionOutcome
  now : Int

/-- A sequence of battle cycles (the `while True` loop), one `CycleEnv` per
cycle. -/
def run_cycles (bots : List Bot) (envs : List CycleEnv) : List Bot :=
  match envs with
  | [] => bots
  | e :: es => run_cycles (run_cycle bots e.rl e.acts e.now).1 es

/-- The bootstrapping `while` loop of `main` (scheduler.py lines 202-211):
while the fleet is below the target size, `register_bot` is called at index
`len(manifest['bots'])`; a successful registration is appended and the
manifest saved, a failed one breaks out of the loop.  `fuel` is the number
of slots still missing, which bounds the iterations since each success
grows the fleet by one.  Returns the grown bot list together with the list
of indices at which a registration was attempted, in order. -/
def bootstrap_aux (fuel : Nat) (bots : List Bot) (reg : Nat → RegResult)
    (now : Int) : List Bot × List Nat :=
  match fuel with
  | 0 => (bots, [])
  | fuel + 1 =>
      match register_bot bots.length (reg bots.length) now with
      | some b =>
          let rest := bootstrap_aux fuel (bots ++ [b]) reg now
          (rest.1, bots.length :: rest.2)
      | none => (bots, [bots.length])

/-- Bootstrapping from a manifest of `bots.length` agents toward `target`
(`BOT_COUNT`). -/
def bootstrap (target : Nat) (bots : List Bot) (reg : Nat → RegResult)
    (now : Int) : List Bot × List Nat :=
  bootstrap_aux (target - bots.length) bots reg now

/-- The provider configuration returned by `get_llm_config`. -/
structure LLMConfig where
  provider : String
  api_key : String
  model : String
  deriving Repr, DecidableEq

/-- The environment variables `get_llm_config` consults. -/
structure Env where
  deepseek_api_key : Option String
  openrouter_api_key : Option String
  deriving Repr, DecidableEq

/-- Python truthiness of `os.environ.get(...)`: absent or empty is falsy. -/
def truthy (s : Option String) : Bool :=
  match s with
  | none => false
  | some v => v ≠ ""

/-- `get_llm_config` (scheduler.py lines 43-59): DeepSeek key first, then
OpenRouter, else `sys.exit(1)` — modelled as `none`. -/
def get_llm_config (e : Env) : Option LLMConfig :=
  if truthy e.deepseek_api_key then
    some { provider := "deepseek"
           api_key := e.deepseek_api_key.getD ""
           model := "deepseek-chat" }
  else if truthy e.openrouter_api_key then
    some { provider := "openrouter"
           api_key := e.openrouter_api_key.getD ""
           model := "meta-llama/llama-3.3-70b-instruct:free" }
  else
    none

/-- Ways the scheduler process can terminate before entering the battle
loop: `get_llm_config` exits for lack of a credential, or `load_manifest`
raises on an unparsable manifest file. -/
inductive StartupError where
  | noCredential : StartupError
  | manifestParseError : StartupError
  deriving Repr, DecidableEq

/-- The startup sequence of `main` (scheduler.py lines 195-199) up to the
bootstrapping phase: resolve the provider configuration (exiting when none
is found), then load the manifest (an unparsable file raises and kills the
process, since `load_manifest` is called outside any handler). -/
def startup (e : Env) (fs : FileState) (now : Int) :
    Except StartupError (LLMConfig × Manifest) :=
  match get_llm_config e with
  | none => .error .noCredential
  | some cfg =>
      match load_manifest fs now with
      | .error _ => .error .manifestParseError
      | .ok m => .ok (cfg, m)

/-- A concrete agent record, used to instantiate universally quantified
statements at explicit inputs. -/
def sampleBot : Bot :=
  { index := 0
    agent_id := "agent-0"
    api_key := "key-0"
    name := "ThunderClaw"
    registered := 0
    last_battle := none
    battles := 0 }

/-- A concrete agent record whose last successful battle is at time 0. -/
def recentBot : Bot :=
  { sampleBot with last_battle := some 0 }

end FleetScheduler

namespace FleetScheduler

/-! ### Helper lemmas shared between the claim theorems -/

/-- `register_bot` yields a record exactly when the remote call succeeded. -/
theorem register_bot_isSome (i : Nat) (r : RegResult) (now : Int) :
    (register_bot i r now).isSome = regOk r := by
  cases r <;> rfl

/-- One cycle step never decreases a bot's battle counter. -/
theorem cycle_step_battles_le (b : Bot) (r : RLResult) (o : ActionOutcome)
    (now : Int) : b.battles ≤ (cycle_step b r o now).1.battles := by
  by_cases h1 : check_rate_limit r = false
  · simp [cycle_step, h1]
  · by_cases h2 : cooldown_ok b.last_battle now = false
    · simp [cycle_step, h1, h2]
    · cases o with
      | completed rc =>
          by_cases hrc : rc = 0 <;>
            simp [cycle_step, h1, h2, run_bot_battle, hrc]
      | timeout => simp [cycle_step, h1, h2, run_bot_battle]
      | error => simp [cycle_step, h1, h2, run_bot_battle]

/-- One full cycle never decreases any bot's battle counter, pointwise. -/
theorem run_cycle_aux_battles_le (bots : List Bot) :
    ∀ (pos : Nat) (rl : Nat → RLResult) (acts : Nat → ActionOutcome)
      (now : Int),
      List.Forall₂ (fun b b' => b.battles ≤ b'.battles) bots
        (run_cycle_aux pos bots rl acts now).1 := by
  induction bots with
  | nil => intro pos rl acts now; exact List.Forall₂.nil
  | cons b rest ih =>
      intro pos rl acts now
      exact List.Forall₂.cons (cycle_step_battles_le b (rl pos) (acts pos) now)
        (ih (pos + 1) rl acts now)

/-- Pointwise `battles ≤` between bot lists is transitive. -/
theorem forall₂_battles_le_trans :
    ∀ {l1 l2 l3 : List Bot},
      List.Forall₂ (fun b b' => b.battles ≤ b'.battles) l1 l2 →
      List.Forall₂ (fun b b' => b.battles ≤ b'.battles) l2 l3 →
      List.Forall₂ (fun b b' => b.battles ≤ b'.battles) l1 l3 := by
  intro l1 l2 l3 h12
  induction h12 generalizing l3 with
  | nil => intro h23; cases h23; exact List.Forall₂.nil
  | cons hab _ ih =>
      intro h23
      cases h23 with
      | cons hbc h' => exact List.Forall₂.cons (le_trans hab hbc) (ih h')

/-- Any sequence of cycles never decreases any bot's battle counter. -/
theorem run_cycles_battles_le (envs : List CycleEnv) :
    ∀ bots : List Bot,
      List.Forall₂ (fun b b' => b.battles ≤ b'.battles) bots
        (run_cycles bots envs) := by
  induction envs with
  | nil =>
      intro bots
      exact List.forall₂_same.mpr (fun x _ => le_refl x.battles)
  | cons e es ih =>
      intro bots
      exact forall₂_battles_le_trans
        (run_cycle_aux_battles_le bots 0 e.rl e.acts e.now)
        (ih (run_cycle bots e.rl e.acts e.now).1)

/-- Bootstrapping only appends: the original bots stay in place. -/
theorem bootstrap_aux_take (fuel : Nat) :
    ∀ (bots : List Bot) (reg : Nat → RegResult) (now : Int),
      (bootstrap_aux fuel bots reg now).1.take bots.length = bots := by
  induction fuel with
  | zero => intro bots reg now; exact List.take_length bots
  | succ fuel ih =>
      intro bots reg now
      cases hreg : register_bot bots.length (reg bots.length) now with
      | none => simp [bootstrap_aux, hreg, List.take_length]
      | some b =>
          have h1 := ih (bots ++ [b]) reg now
          have h2 : (bootstrap_aux fuel (bots ++ [b]) reg now).1.take bots.length
              = bots := by
            have hmin : bots.length = min bots.length (bots ++ [b]).length := by
              simp
            calc (bootstrap_aux fuel (bots ++ [b]) reg now).1.take bots.length
                = ((bootstrap_aux fuel (bots ++ [b]) reg now).1.take
                    (bots ++ [b]).length).take bots.length := by
                  rw [List.take_take, ← hmin]
              _ = (bots ++ [b]).take bots.length := by rw [h1]
              _ = bots := List.take_left bots [b]
          simpa [bootstrap_aux, hreg] using h2

/-- When every missing slot's registration succeeds, bootstrapping attempts
each index from the current size up to the end of the fuel, in order, and
the fleet grows by exactly one per attempt. -/
theorem bootstrap_aux_all_ok (fuel : Nat) :
    ∀ (bots : List Bot) (reg : Nat → RegResult) (now : Int),
      (∀ i : Nat, bots.length ≤ i → i < bots.length + fuel →
        regOk (reg i) = true) →
      (bootstrap_aux fuel bots reg now).2 = List.range' bots.length fuel
      ∧ (bootstrap_aux fuel bots reg now).1.length = bots.length + fuel := by
  induction fuel with
  | zero => intro bots reg now _; exact ⟨rfl, rfl⟩
  | succ fuel ih =>
      intro bots reg now h
      have hok : regOk (reg bots.length) = true :=
        h bots.length (le_refl _) (by omega)
      have hsome : (register_bot bots.length (reg bots.length) now).isSome
          = true := by rw [register_bot_isSome]; exact hok
      cases hreg : register_bot bots.length (reg bots.length) now with
      | none => rw [hreg] at hsome; simp at hsome
      | some b =>
          have hlen : (bots ++ [b]).length = bots.length + 1 := by simp
          have hrec := ih (bots ++ [b]) reg now (by
            intro i hi1 hi2
            rw [hlen] at hi1 hi2
            exact h i (by omega) (by omega))
          rw [hlen] at hrec
          refine ⟨?_, ?_⟩
          · simp only [bootstrap_aux, hreg, hrec.1]
            rfl
          · simp only [bootstrap_aux, hreg, hrec.2]
            omega

/-- When the first failing registration is at index `j`, bootstrapping
attempts exactly the indices from the current size through `j`, appends one
bot per success, and stops: the final fleet has exactly `j` bots. -/
theorem bootstrap_aux_first_fail (fuel : Nat) :
    ∀ (bots : List Bot) (reg : Nat → RegResult) (now : Int) (j : Nat),
      bots.length ≤ j → j < bots.length + fuel →
      regOk (reg j) = false →
      (∀ i : Nat, bots.length ≤ i → i < j → regOk (reg i) = true) →
      (bootstrap_aux fuel bots reg now).2
        = List.range' bots.length (j - bots.length + 1)
      ∧ (bootstrap_aux fuel bots reg now).1.length = j := by
  induction fuel with
  | zero => intro bots reg now j h1 h2 _ _; omega
  | succ fuel ih =>
      intro bots reg now j h1 h2 hfail hok
      by_cases hj : j = bots.length
      · subst hj
        have hnone : register_bot bots.length (reg bots.length) now = none := by
          have := register_bot_isSome bots.length (reg bots.length) now
          rw [hfail] at this
          cases hreg : register_bot bots.length (reg bots.length) now with
          | none => rfl
          | some b => rw [hreg] at this; simp at this
        refine ⟨?_, ?_⟩
        · simp [bootstrap_aux, hnone]
        · simp [bootstrap_aux, hnone]
      · have hgt : bots.length < j := by omega
        have hokhead : regOk (reg bots.length) = true :=
          hok bots.length (le_refl _) hgt
        have hsome : (register_bot bots.length (reg bots.length) now).isSome
            = true := by rw [register_bot_isSome]; exact hokhead
        cases hreg : register_bot bots.length (reg bots.length) now with
        | none => rw [hreg] at hsome; simp at hsome
        | some b =>
            have hlen : (bots ++ [b]).length = bots.length + 1 := by simp
            have hrec := ih (bots ++ [b]) reg now j (by omega) (by omega)
              hfail (by
                intro i hi1 hi2
                rw [hlen] at hi1
                exact hok i (by omega) hi2)
            rw [hlen] at hrec
            refine ⟨?_, ?_⟩
            · simp only [bootstrap_aux, hreg, hrec.1]
              have harith : j - bots.length + 1 = (j - (bots.length + 1) + 1) + 1 := by
                omega
              rw [harith]
              rfl
            · simp only [bootstrap_aux, hreg]
              exact hrec.2

/-- A cycle step on a timed-out action leaves the record unchanged and is
never counted as a successful run. -/
theorem cycle_step_timeout (b : Bot) (r : RLResult) (now : Int) :
    (cycle_step b r ActionOutcome.timeout now).1 = b
    ∧ (cycle_step b r ActionOutcome.timeout now).2 ≠ StepResult.ran true := by
  by_cases h1 : check_rate_limit r = false
  · simp [cycle_step, h1]
  · by_cases h2 : cooldown_ok b.last_battle now = false
    · simp [cycle_step, h1, h2]
    · simp [cycle_step, h1, h2, run_bot_battle]

/-! ### Claim theorems -/

/-- C1 (counterexample): on a persisted manifest file that is present but
unparsable, `load_manifest` does not return a manifest — the parse failure
propagates as an error, contradicting the claim that every persisted-state
condition degrades to a manifest. -/
theorem claim_C1_counterexample :
    load_manifest FileState.corrupt 0 = Except.error "JSONDecodeError" :=
  rfl

/-- C1 (amended): a missing manifest file degrades to an empty fleet with a
fresh creation timestamp and a well-formed file loads without error, but a
corrupt/unparsable file makes the load raise rather than fall back. -/
theorem claim_C1_load_missing_degrades_corrupt_raises :
    ∀ now : Int,
      load_manifest FileState.missing now = Except.ok { bots := [], created := now }
      ∧ (∀ m : Manifest, load_manifest (FileState.valid m) now = Except.ok m)
      ∧ load_manifest FileState.corrupt now = Except.error "JSONDecodeError" :=
  fun _ => ⟨rfl, fun _ => rfl, rfl⟩

/-- C2 (counterexample): on a transport failure, registration at two
different indices returns one and the same value `none`, so the failure
result cannot carry the index (nor the cause) as the claim states. -/
theorem claim_C2_counterexample :
    register_bot 0 RegResult.transportError 0 = none
    ∧ register_bot 1 RegResult.transportError 0 = none
    ∧ ¬ ∃ recover : Option Bot → Nat,
        recover (register_bot 0 RegResult.transportError 0) = 0
        ∧ recover (register_bot 1 RegResult.transportError 0) = 1 := by
  refine ⟨rfl, rfl, ?_⟩
  rintro ⟨recover, h0, h1⟩
  have e0 : register_bot 0 RegResult.transportError 0 = none := rfl
  have e1 : register_bot 1 RegResult.transportError 0 = none := rfl
  rw [e0] at h0
  rw [e1] at h1
  exact absurd (h0.symm.trans h1) (by decide)

/-- C2 (amended): on every failure of the remote registration call
(transport error, non-success status, or a response without the data
payload) the registration operation returns the bare `None` sentinel —
carrying neither the index nor the cause — and, being total, never raises
past the registration boundary. -/
theorem claim_C2_register_failure_returns_none :
    ∀ (i : Nat) (r : RegResult) (now : Int),
      regOk r = false → register_bot i r now = none := by
  intro i r now h
  cases r with
  | transportError => rfl
  | httpError => rfl
  | noData => rfl
  | success a k n => simp [regOk] at h

/-- C2 (witness): the amended statement at index 5 on a transport error. -/
theorem claim_C2_witness :
    regOk RegResult.transportError = false
    ∧ register_bot 5 RegResult.transportError 0 = none :=
  ⟨rfl, claim_C2_register_failure_returns_none 5 RegResult.transportError 0 rfl⟩

/-- C6: the Rate-Limit Gate reports not-eligible on a query failure, a
non-success response, a response without the data payload, a missing
remaining-actions count, and a zero count; it reports eligible exactly when
the response carries a strictly positive remaining-actions count; and
whenever it reports not-eligible the cycle skips the bot without invoking
the Action Runner and without touching the record. -/
theorem claim_C6_rate_limit_gate :
    (check_rate_limit RLResult.err = false
      ∧ check_rate_limit RLResult.respNotOk = false
      ∧ check_rate_limit RLResult.respNoData = false
      ∧ check_rate_limit (RLResult.respData none) = false
      ∧ check_rate_limit (RLResult.respData (some 0)) = false)
    ∧ (∀ r : RLResult, check_rate_limit r = true ↔
        ∃ z : Int, r = RLResult.respData (some z) ∧ 0 < z)
    ∧ (∀ (b : Bot) (r : RLResult) (o : ActionOutcome) (now : Int),
        check_rate_limit r = false →
          cycle_step b r o now = (b, StepResult.skippedRL)) := by
  refine ⟨⟨rfl, rfl, rfl, rfl, by decide⟩, ?_, ?_⟩
  · intro r
    cases r with
    | err => simp [check_rate_limit]
    | respNotOk => simp [check_rate_limit]
    | respNoData => simp [check_rate_limit]
    | respData f =>
        cases f with
        | none => simp [check_rate_limit]
        | some z => simp [check_rate_limit]
  · intro b r o now h
    simp [cycle_step, h]

/-- C6 (witness): a bot whose rate-limit query raised is skipped. -/
theorem claim_C6_witness :
    cycle_step sampleBot RLResult.err (ActionOutcome.completed 0) 0
      = (sampleBot, StepResult.skippedRL) :=
  claim_C6_rate_limit_gate.2.2 sampleBot RLResult.err (ActionOutcome.completed 0)
    0 rfl

/-- C9: loading a well-formed persisted manifest yields it field-for-field,
saving writes it back unchanged, and zero cycles leave the bots unchanged —
the load/save round trip is the identity on manifests. -/
theorem claim_C9_load_save_roundtrip :
    ∀ (m : Manifest) (now : Int),
      load_manifest (FileState.valid m) now = Except.ok m
      ∧ save_manifest m = FileState.valid m
      ∧ run_cycles m.bots [] = m.bots
      ∧ load_manifest (save_manifest m) now = Except.ok m :=
  fun _ _ => ⟨rfl, rfl, rfl, rfl⟩

/-- C4: whenever a bot's previous successful battle lies strictly less than
the 55-minute (3300 s) cool-down in the past, the cycle leaves its record
unchanged and never hands it to the Action Runner, whatever the
remote-reported rate-limit response and whatever the action would do. -/
theorem claim_C4_no_action_within_cooldown :
    ∀ (b : Bot) (r : RLResult) (o : ActionOutcome) (now t : Int),
      b.last_battle = some t → now - t < 3300 →
        (cycle_step b r o now).1 = b
        ∧ ∀ s : Bool, (cycle_step b r o now).2 ≠ StepResult.ran s := by
  intro b r o now t hlb hlt
  by_cases h1 : check_rate_limit r = false
  · simp [cycle_step, h1]
  · have hcd : cooldown_ok b.last_battle now = false := by
      simp [cooldown_ok, hlb]
      omega
    simp [cycle_step, h1, hcd]

/-- C4 (witness): a bot that battled 600 seconds ago is not run even though
the remote side reports five remaining fights. -/
theorem claim_C4_witness :
    (cycle_step recentBot (RLResult.respData (some 5))
        (ActionOutcome.completed 0) 600).1 = recentBot
    ∧ (cycle_step recentBot (RLResult.respData (some 5))
        (ActionOutcome.completed 0) 600).2 ≠ StepResult.ran true :=
  have h := claim_C4_no_action_within_cooldown recentBot
    (RLResult.respData (some 5)) (ActionOutcome.completed 0) 600 0 rfl (by decide)
  ⟨h.1, h.2 true⟩

/-- C5: a bot's battle counter is incremented by exactly one exactly when
the cycle ran its battle and the Action Runner reported success (which
happens exactly on normal completion with return code 0), and across any
sequence of cycles every bot's battle counter is non-decreasing. -/
theorem claim_C5_battles_monotone :
    (∀ (b : Bot) (r : RLResult) (o : ActionOutcome) (now : Int),
      (cycle_step b r o now).1.battles
        = b.battles
          + (if (cycle_step b r o now).2 = StepResult.ran true then 1 else 0))
    ∧ (∀ (b : Bot) (o : ActionOutcome) (now : Int),
        ((run_bot_battle b o now).2 = true ↔ o = ActionOutcome.completed 0)
        ∧ (run_bot_battle b o now).1.battles
            = b.battles + (if (run_bot_battle b o now).2 then 1 else 0))
    ∧ (∀ (bots : List Bot) (envs : List CycleEnv),
        List.Forall₂ (fun b b' => b.battles ≤ b'.battles) bots
          (run_cycles bots envs)) := by
  refine ⟨?_, ?_, fun bots envs => run_cycles_battles_le envs bots⟩
  · intro b r o now
    by_cases h1 : check_rate_limit r = false
    · simp [cycle_step, h1]
    · by_cases h2 : cooldown_ok b.last_battle now = false
      · simp [cycle_step, h1, h2]
      · cases o with
        | completed rc =>
            by_cases hrc : rc = 0 <;>
              simp [cycle_step, h1, h2, run_bot_battle, hrc]
        | timeout => simp [cycle_step, h1, h2, run_bot_battle]
        | error => simp [cycle_step, h1, h2, run_bot_battle]
  · intro b o now
    cases o with
    | completed rc =>
        by_cases hrc : rc = 0 <;> simp [run_bot_battle, hrc]
    | timeout => simp [run_bot_battle]
    | error => simp [run_bot_battle]

/-- C7: a timed-out or abnormally terminated action is classified as
failure with the record unchanged, and after a timed-out bot the cycle
still processes the remaining bots, counting no battle for it. -/
theorem claim_C7_action_failure_frame :
    ∀ (pos : Nat) (b : Bot) (rest : List Bot) (rl : Nat → RLResult)
      (acts : Nat → ActionOutcome) (now : Int),
      run_bot_battle b ActionOutcome.timeout now = (b, false)
      ∧ (∀ rc : Int, rc ≠ 0 →
          run_bot_battle b (ActionOutcome.completed rc) now = (b, false))
      ∧ run_bot_battle b ActionOutcome.error now = (b, false)
      ∧ (acts pos = ActionOutcome.timeout →
          (run_cycle_aux pos (b :: rest) rl acts now).1
            = b :: (run_cycle_aux (pos + 1) rest rl acts now).1
          ∧ (run_cycle_aux pos (b :: rest) rl acts now).2
            = (run_cycle_aux (pos + 1) rest rl acts now).2) := by
  intro pos b rest rl acts now
  refine ⟨rfl, ?_, rfl, ?_⟩
  · intro rc hrc
    simp [run_bot_battle, hrc]
  · intro hact
    have h := cycle_step_timeout b (rl pos) now
    constructor
    · simp only [run_cycle_aux, hact]
      rw [h.1]
    · simp only [run_cycle_aux, hact]
      simp [h.2]

/-- C7 (witness): the failure frame at a concrete bot, with the remote
gate open and the action timing out. -/
theorem claim_C7_witness :
    run_bot_battle sampleBot ActionOutcome.timeout 0 = (sampleBot, false)
    ∧ run_bot_battle sampleBot (ActionOutcome.completed 1) 0 = (sampleBot, false)
    ∧ (run_cycle_aux 0 [sampleBot] (fun _ => RLResult.respData (some 1))
        (fun _ => ActionOutcome.timeout) 0).1
      = sampleBot :: (run_cycle_aux 1 ([] : List Bot)
          (fun _ => RLResult.respData (some 1))
          (fun _ => ActionOutcome.timeout) 0).1 :=
  have h := claim_C7_action_failure_frame 0 sampleBot []
    (fun _ => RLResult.respData (some 1)) (fun _ => ActionOutcome.timeout) 0
  ⟨h.1, h.2.1 1 (by decide), (h.2.2.2 rfl).1⟩

/-- C10: the local cool-down check passes exactly when the bot never
battled or at least 3300 seconds (55 minutes) elapsed since its last
battle; a bot that never battled is gated only by the remote rate limit
(the runner is invoked as soon as the gate opens); and a bot exactly at
the cool-down boundary is eligible. -/
theorem claim_C10_cooldown_boundary :
    (∀ (lb : Option Int) (now : Int),
      cooldown_ok lb now = true
        ↔ (lb = none ∨ ∃ t : Int, lb = some t ∧ 3300 ≤ now - t))
    ∧ (∀ (b : Bot) (r : RLResult) (o : ActionOutcome) (now : Int),
        b.last_battle = none → check_rate_limit r = true →
          cycle_step b r o now
            = ((run_bot_battle b o now).1,
               StepResult.ran (run_bot_battle b o now).2))
    ∧ (∀ t : Int, cooldown_ok (some t) (t + 3300) = true) := by
  refine ⟨?_, ?_, ?_⟩
  · intro lb now
    cases lb with
    | none => simp [cooldown_ok]
    | some t => simp [cooldown_ok]
  · intro b r o now hlb hrl
    simp [cycle_step, hrl, cooldown_ok, hlb]
  · intro t
    simp [cooldown_ok]

/-- C10 (witness): eligibility exactly at the 55-minute boundary, and a
never-battled bot running as soon as the remote gate opens. -/
theorem claim_C10_witness :
    cooldown_ok (some 0) 3300 = true
    ∧ cycle_step sampleBot (RLResult.respData (some 2))
        (ActionOutcome.completed 0) 0
      = ((run_bot_battle sampleBot (ActionOutcome.completed 0) 0).1,
         StepResult.ran (run_bot_battle sampleBot (ActionOutcome.completed 0) 0).2) :=
  ⟨by
    have h := (claim_C10_cooldown_boundary.1 (some 0) 3300).mpr
      (Or.inr ⟨0, rfl, by decide⟩)
    exact h,
   claim_C10_cooldown_boundary.2.1 sampleBot (RLResult.respData (some 2))
     (ActionOutcome.completed 0) 0 rfl (by decide)⟩

/-- C3: starting from a manifest of size K at most the target, the
already-registered bots are preserved as a prefix of the result; if every
registration succeeds, the attempted indices are exactly K, K+1, …,
target−1 (in order, hence exactly target−K attempts) and the fleet reaches
the target size; and if the first failing registration is at index j, the
attempted indices are exactly K through j (none beyond j) and the fleet
stops at size j, from which the scheduler proceeds to the battle loop. -/
theorem claim_C3_bootstrap_growth :
    ∀ (target : Nat) (bots : List Bot) (reg : Nat → RegResult) (now : Int),
      bots.length ≤ target →
        ((bootstrap target bots reg now).1.take bots.length = bots)
        ∧ ((∀ i : Nat, bots.length ≤ i → i < target → regOk (reg i) = true) →
            (bootstrap target bots reg now).2
              = List.range' bots.length (target - bots.length)
            ∧ (bootstrap target bots reg now).1.length = target)
        ∧ (∀ j : Nat, bots.length ≤ j → j < target →
            regOk (reg j) = false →
            (∀ i : Nat, bots.length ≤ i → i < j → regOk (reg i) = true) →
            (bootstrap target bots reg now).2
              = List.range' bots.length (j - bots.length + 1)
            ∧ (bootstrap target bots reg now).1.length = j) := by
  intro target bots reg now hK
  refine ⟨bootstrap_aux_take (target - bots.length) bots reg now, ?_, ?_⟩
  · intro hall
    have h := bootstrap_aux_all_ok (target - bots.length) bots reg now (by
      intro i hi1 hi2
      exact hall i hi1 (by omega))
    refine ⟨h.1, ?_⟩
    show (bootstrap_aux (target - bots.length) bots reg now).1.length = target
    rw [h.2]
    omega
  · intro j hj1 hj2 hfail hok
    exact bootstrap_aux_first_fail (target - bots.length) bots reg now j hj1
      (by omega) hfail hok

/-- C3 (witness): an empty manifest bootstrapped toward target 2 with all
registrations succeeding attempts indices 0 and 1 and reaches size 2. -/
theorem claim_C3_witness :
    (bootstrap 2 [] (fun _ => RegResult.success "a" "k" none) 0).2
      = List.range' 0 2
    ∧ (bootstrap 2 [] (fun _ => RegResult.success "a" "k" none) 0).1.length
      = 2 :=
  (claim_C3_bootstrap_growth 2 [] (fun _ => RegResult.success "a" "k" none) 0
    (by decide)).2.1 (fun _ _ _ => rfl)

/-- C8 (counterexample): with a provider credential present, an unparsable
manifest file also terminates the process before the cycle loop — so the
startup does not terminate exactly on missing-credential configuration
errors, contradicting the claim's "exactly when". -/
theorem claim_C8_counterexample :
    truthy (some "k") = true
    ∧ startup { deepseek_api_key := some "k", openrouter_api_key := none }
        FileState.corrupt 0
      = Except.error StartupError.manifestParseError := by
  exact ⟨by decide, rfl⟩

/-- C8 (amended): the scheduler terminates before entering the cycle loop
exactly when no provider credential is present (both environment keys
absent or empty) or the persisted manifest file is present but unparsable;
remote-call failures in registration, rate-limit query and action
execution are each converted into ordinary return values and never escape
their handler. -/
theorem claim_C8_startup_termination :
    ∀ (e : Env) (fs : FileState) (now : Int),
      ((∃ err : StartupError, startup e fs now = Except.error err)
        ↔ (get_llm_config e = none ∨ fs = FileState.corrupt))
      ∧ (get_llm_config e = none
          ↔ (truthy e.deepseek_api_key = false
             ∧ truthy e.openrouter_api_key = false))
      ∧ check_rate_limit RLResult.err = false
      ∧ (∀ (i : Nat) (n2 : Int),
          register_bot i RegResult.transportError n2 = none)
      ∧ (∀ (b : Bot) (n2 : Int),
          run_bot_battle b ActionOutcome.error n2 = (b, false)) := by
  intro e fs now
  refine ⟨?_, ?_, rfl, fun _ _ => rfl, fun _ _ => rfl⟩
  · cases hcfg : get_llm_config e with
    | none => simp [startup, hcfg]
    | some cfg =>
        cases fs with
        | missing => simp [startup, hcfg, load_manifest]
        | corrupt => simp [startup, hcfg, load_manifest]
        | valid m => simp [startup, hcfg, load_manifest]
  · cases hds : truthy e.deepseek_api_key <;>
      cases hor : truthy e.openrouter_api_key <;>
        simp [get_llm_config, hds, hor]

end FleetScheduler
